import Mathlib

/-
Verification of the Futures Trading Dashboard against its specification.

The development shallowly embeds the data model and the query/filter logic of
the repository (slicers.py, data_utils.py, analysis.py, charts.py, app.py):
clock times become minutes- or seconds-of-day naturals, SQL numeric prices
become rationals, SQL NULL becomes `Option`, and each query's row-level
predicate or per-day aggregation becomes an executable Lean function.
-/

namespace FTD

/-! ## Clock-time arithmetic (slicers.py, data_utils.py)

A clock time is a pair (hour, minute).  `addMinutesToTime` models
`(datetime.combine(today, t) + timedelta(minutes=d)).time()` as used at
slicers.py lines 201-203 and data_utils.py line 170: the sum wraps around
midnight. -/

/-- A clock time (hour, minute) converted to minutes since midnight. -/
def timeToMinutes (t : Nat × Nat) : Nat := t.1 * 60 + t.2

/-- `(datetime.combine(today, t) + timedelta(minutes=d)).time()`:
add `d` minutes to clock time `t`, wrapping around midnight. -/
def addMinutesToTime (t : Nat × Nat) (d : Nat) : Nat × Nat :=
  let total := t.1 * 60 + t.2 + d
  ((total / 60) % 24, total % 60)

/-- slicers.py lines 201-203: each zone's end time is its start time plus a
fixed 60 minutes, computed through `datetime` arithmetic. -/
def zoneEndTime (start : Nat × Nat) : Nat × Nat := addMinutesToTime start 60

/-- slicers.py `zone_filter`: returns the zone start time built from the user's
hour/minute widgets together with the fixed duration `zone_duration = 60`. -/
def zone_filter (zoneHour zoneMinute : Nat) : (Nat × Nat) × Nat :=
  ((zoneHour, zoneMinute), 60)

/-- The row predicate of
`CAST(ts_event AS time) BETWEEN :zone_start AND :zone_end`
in the `zone_data` CTE of `group_symbols_by_time_zone` (slicers.py
lines 217-222), with all three times measured in minutes since midnight.
SQL `BETWEEN a AND b` means `a <= x AND x <= b`. -/
def sqlZoneMember (zstart zend t : Nat) : Prop :=
  zstart ≤ t ∧ t ≤ zend

instance (zstart zend t : Nat) : Decidable (sqlZoneMember zstart zend t) := by
  unfold sqlZoneMember; infer_instance

/-- The row predicate of `filter_zones` (data_utils.py lines 169-210) for a
zone opening at `openingHour:startMinute` with a window of `minutes` minutes,
applied to a bar whose derived fields are `h:m`.  The two branches mirror the
midnight-crossing test and the two pandas boolean masks of the source. -/
def filterZonesMember (openingHour startMinute minutes h m : Nat) : Prop :=
  let endTotal := (openingHour * 60 + startMinute + minutes) % 1440
  let endHour := endTotal / 60
  let endMinute := endTotal % 60
  if endHour < openingHour ∨ (endHour = openingHour ∧ endMinute ≤ startMinute) then
    -- time window crosses midnight
    (h = openingHour ∧ startMinute ≤ m) ∨
      (h < endHour ∨ (h = endHour ∧ m < endMinute))
  else
    -- time window within the same day
    (h = openingHour ∧ startMinute ≤ m ∧
        (h < endHour ∨ (h = endHour ∧ m < endMinute))) ∨
      (openingHour < h ∧ h < endHour) ∨
      (h = endHour ∧ m < endMinute)

instance (oh sm mins h m : Nat) : Decidable (filterZonesMember oh sm mins h m) := by
  unfold filterZonesMember; infer_instance

/-! ## Zone classification (slicers.py, `group_symbols_by_time_zone`)

The `zone_conditions` CTE computes, per day, a single `zone_relationship`
label through a SQL `CASE` ladder over the three per-zone maxima
(`zone1_max`, `zone2_max`, `zone3_max`), each of which is NULL when the zone
has no bars that day.  SQL three-valued logic makes a comparison with a NULL
operand non-true, so each `WHEN` arm only fires when the compared value is
present. -/

/-- SQL `COALESCE(a, d)`. -/
def coalesce (a : Option ℚ) (d : ℚ) : ℚ := a.getD d

/-- SQL `a > b` where `a` may be NULL: non-true when `a` is NULL. -/
def optGt (a : Option ℚ) (b : ℚ) : Bool :=
  match a with
  | some x => decide (b < x)
  | none => false

/-- SQL `a < b` where `a` may be NULL: non-true when `a` is NULL. -/
def optLt (a : Option ℚ) (b : ℚ) : Bool :=
  match a with
  | some x => decide (x < b)
  | none => false

/-- SQL `ABS`. -/
def ratAbs (x : ℚ) : ℚ := if x < 0 then -x else x

/-- SQL `a IS NOT NULL AND b IS NOT NULL AND ABS(a - b) < 0.1`. -/
def stackedCond (a b : Option ℚ) : Bool :=
  match a, b with
  | some x, some y => decide (ratAbs (x - y) < mkRat 1 10)
  | _, _ => false

/-- `WHEN :zone1_type = 'Above Zone 2' AND zone1_max > COALESCE(zone2_max, 0)`. -/
def z1AboveFires (z1t : String) (z1 z2 : Option ℚ) : Bool :=
  z1t == "Above Zone 2" && optGt z1 (coalesce z2 0)

/-- `WHEN :zone1_type = 'Below Zone 2' AND zone1_max < COALESCE(zone2_max, 999999)`. -/
def z1BelowFires (z1t : String) (z1 z2 : Option ℚ) : Bool :=
  z1t == "Below Zone 2" && optLt z1 (coalesce z2 999999)

/-- `WHEN :zone1_type = 'Stacked with Zone 2' AND zone1_max IS NOT NULL AND
zone2_max IS NOT NULL AND ABS(zone1_max - zone2_max) < 0.1`. -/
def z1StackedFires (z1t : String) (z1 z2 : Option ℚ) : Bool :=
  z1t == "Stacked with Zone 2" && stackedCond z1 z2

/-- `WHEN :zone2_type = 'Above Zone 1' AND zone2_max > COALESCE(zone1_max, 0)`. -/
def z2AboveFires (z2t : String) (z1 z2 : Option ℚ) : Bool :=
  z2t == "Above Zone 1" && optGt z2 (coalesce z1 0)

/-- `WHEN :zone2_type = 'Below Zone 1' AND zone2_max < COALESCE(zone1_max, 999999)`. -/
def z2BelowFires (z2t : String) (z1 z2 : Option ℚ) : Bool :=
  z2t == "Below Zone 1" && optLt z2 (coalesce z1 999999)

/-- `WHEN :zone2_type = 'Stacked with Zone 1' AND zone1_max IS NOT NULL AND
zone2_max IS NOT NULL AND ABS(zone2_max - zone1_max) < 0.1`. -/
def z2StackedFires (z2t : String) (z1 z2 : Option ℚ) : Bool :=
  z2t == "Stacked with Zone 1" && stackedCond z2 z1

/-- `WHEN :zone3_type = 'Above Zone 1 & Zone 2' AND zone3_max >
COALESCE(zone1_max, 0) AND zone3_max > COALESCE(zone2_max, 0)`. -/
def z3AboveFires (z3t : String) (z1 z2 z3 : Option ℚ) : Bool :=
  z3t == "Above Zone 1 & Zone 2" && optGt z3 (coalesce z1 0) && optGt z3 (coalesce z2 0)

/-- `WHEN :zone3_type = 'Below Zone 1 & Zone 2' AND zone3_max <
COALESCE(zone1_max, 999999) AND zone3_max < COALESCE(zone2_max, 999999)`. -/
def z3BelowFires (z3t : String) (z1 z2 z3 : Option ℚ) : Bool :=
  z3t == "Below Zone 1 & Zone 2" && optLt z3 (coalesce z1 999999) && optLt z3 (coalesce z2 999999)

/-- `WHEN :zone3_type = 'Stacked with Zone 1 & Zone 2' AND zone3_max IS NOT
NULL AND zone1_max IS NOT NULL AND zone2_max IS NOT NULL AND
ABS(zone3_max - zone1_max) < 0.1 AND ABS(zone3_max - zone2_max) < 0.1`. -/
def z3StackedFires (z3t : String) (z1 z2 z3 : Option ℚ) : Bool :=
  z3t == "Stacked with Zone 1 & Zone 2" && z3.isSome && z1.isSome && z2.isSome &&
    stackedCond z3 z1 && stackedCond z3 z2

/-- The `CASE ... END as zone_relationship` ladder of
`group_symbols_by_time_zone` (slicers.py lines 237-279), arms in source
order; `none` models the `ELSE NULL`. -/
def zoneRelationship (z1t z2t z3t : String) (z1 z2 z3 : Option ℚ) : Option String :=
  if z1AboveFires z1t z1 z2 then some "Zone 1 above Zone 2"
  else if z1BelowFires z1t z1 z2 then some "Zone 1 below Zone 2"
  else if z1StackedFires z1t z1 z2 then some "Zone 1 stacked with Zone 2"
  else if z2AboveFires z2t z1 z2 then some "Zone 2 above Zone 1"
  else if z2BelowFires z2t z1 z2 then some "Zone 2 below Zone 1"
  else if z2StackedFires z2t z1 z2 then some "Zone 2 stacked with Zone 1"
  else if z3AboveFires z3t z1 z2 z3 then some "Zone 3 above Zone 1 & Zone 2"
  else if z3BelowFires z3t z1 z2 z3 then some "Zone 3 below Zone 1 & Zone 2"
  else if z3StackedFires z3t z1 z2 z3 then some "Zone 3 stacked with Zone 1 & Zone 2"
  else none

/-- Some arm of the Zone 1 `CASE` block matches. -/
def zone1Fires (z1t : String) (z1 z2 : Option ℚ) : Bool :=
  z1AboveFires z1t z1 z2 || z1BelowFires z1t z1 z2 || z1StackedFires z1t z1 z2

/-- Some arm of the Zone 2 `CASE` block matches. -/
def zone2Fires (z2t : String) (z1 z2 : Option ℚ) : Bool :=
  z2AboveFires z2t z1 z2 || z2BelowFires z2t z1 z2 || z2StackedFires z2t z1 z2

/-- The spec's wording of Stacked: the two maxima are both present and differ
by less than 0.1 price units. -/
def stackedProp (a b : Option ℚ) : Prop :=
  ∃ x y, a = some x ∧ b = some y ∧ |x - y| < 1 / 10

lemma ratAbs_eq_abs (x : ℚ) : ratAbs x = |x| := by
  rcases lt_or_le x 0 with h | h
  · simp [ratAbs, h, abs_of_neg h]
  · simp [ratAbs, not_lt.mpr h, abs_of_nonneg h]

lemma stackedCond_iff (a b : Option ℚ) :
    stackedCond a b = true ↔ stackedProp a b := by
  cases a <;> cases b <;>
    simp [stackedCond, stackedProp, ratAbs_eq_abs, Rat.mkRat_eq_div]

section Characterization

variable (z1t z2t z3t : String) (z1 z2 z3 : Option ℚ)

lemma zr_eq_z1above :
    zoneRelationship z1t z2t z3t z1 z2 z3 = some "Zone 1 above Zone 2" ↔
      z1AboveFires z1t z1 z2 = true := by
  unfold zoneRelationship
  split_ifs <;> simp_all

lemma zr_eq_z1below :
    zoneRelationship z1t z2t z3t z1 z2 z3 = some "Zone 1 below Zone 2" ↔
      z1AboveFires z1t z1 z2 = false ∧ z1BelowFires z1t z1 z2 = true := by
  unfold zoneRelationship
  split_ifs <;> simp_all

lemma zr_eq_z1stacked :
    zoneRelationship z1t z2t z3t z1 z2 z3 = some "Zone 1 stacked with Zone 2" ↔
      z1AboveFires z1t z1 z2 = false ∧ z1BelowFires z1t z1 z2 = false ∧
        z1StackedFires z1t z1 z2 = true := by
  unfold zoneRelationship
  split_ifs <;> simp_all

lemma zr_eq_z2above :
    zoneRelationship z1t z2t z3t z1 z2 z3 = some "Zone 2 above Zone 1" ↔
      zone1Fires z1t z1 z2 = false ∧ z2AboveFires z2t z1 z2 = true := by
  unfold zoneRelationship zone1Fires
  split_ifs <;> simp_all

lemma zr_eq_z2below :
    zoneRelationship z1t z2t z3t z1 z2 z3 = some "Zone 2 below Zone 1" ↔
      zone1Fires z1t z1 z2 = false ∧ z2AboveFires z2t z1 z2 = false ∧
        z2BelowFires z2t z1 z2 = true := by
  unfold zoneRelationship zone1Fires
  split_ifs <;> simp_all

lemma zr_eq_z2stacked :
    zoneRelationship z1t z2t z3t z1 z2 z3 = some "Zone 2 stacked with Zone 1" ↔
      zone1Fires z1t z1 z2 = false ∧ z2AboveFires z2t z1 z2 = false ∧
        z2BelowFires z2t z1 z2 = false ∧ z2StackedFires z2t z1 z2 = true := by
  unfold zoneRelationship zone1Fires
  split_ifs <;> simp_all

lemma zr_eq_z3above :
    zoneRelationship z1t z2t z3t z1 z2 z3 = some "Zone 3 above Zone 1 & Zone 2" ↔
      zone1Fires z1t z1 z2 = false ∧ zone2Fires z2t z1 z2 = false ∧
        z3AboveFires z3t z1 z2 z3 = true := by
  unfold zoneRelationship zone1Fires zone2Fires
  split_ifs <;> simp_all

lemma zr_eq_z3below :
    zoneRelationship z1t z2t z3t z1 z2 z3 = some "Zone 3 below Zone 1 & Zone 2" ↔
      zone1Fires z1t z1 z2 = false ∧ zone2Fires z2t z1 z2 = false ∧
        z3AboveFires z3t z1 z2 z3 = false ∧ z3BelowFires z3t z1 z2 z3 = true := by
  unfold zoneRelationship zone1Fires zone2Fires
  split_ifs <;> simp_all

lemma zr_eq_z3stacked :
    zoneRelationship z1t z2t z3t z1 z2 z3 = some "Zone 3 stacked with Zone 1 & Zone 2" ↔
      zone1Fires z1t z1 z2 = false ∧ zone2Fires z2t z1 z2 = false ∧
        z3AboveFires z3t z1 z2 z3 = false ∧ z3BelowFires z3t z1 z2 z3 = false ∧
        z3StackedFires z3t z1 z2 z3 = true := by
  unfold zoneRelationship zone1Fires zone2Fires
  split_ifs <;> simp_all

end Characterization

/-- C1 (amended): a day is classified Stacked for the zone whose condition is
a Stacked option exactly when the compared maxima are both present and differ
by less than 0.1 (for Zone 3, against both Zone 1 and Zone 2) — provided, for
Zone 2 and Zone 3, that no earlier zone's arm of the `CASE` ladder matches;
for Zone 1 the equivalence is unconditional. -/
theorem c1_stacked_classification (z1t z2t z3t : String) (z1 z2 z3 : Option ℚ) :
    (zoneRelationship "Stacked with Zone 2" z2t z3t z1 z2 z3 =
        some "Zone 1 stacked with Zone 2" ↔ stackedProp z1 z2)
  ∧ (zone1Fires z1t z1 z2 = false →
      (zoneRelationship z1t "Stacked with Zone 1" z3t z1 z2 z3 =
          some "Zone 2 stacked with Zone 1" ↔ stackedProp z2 z1))
  ∧ (zone1Fires z1t z1 z2 = false → zone2Fires z2t z1 z2 = false →
      (zoneRelationship z1t z2t "Stacked with Zone 1 & Zone 2" z1 z2 z3 =
          some "Zone 3 stacked with Zone 1 & Zone 2" ↔
        stackedProp z3 z1 ∧ stackedProp z3 z2)) := by
  refine ⟨?_, fun h1 => ?_, fun h1 h2 => ?_⟩
  · rw [zr_eq_z1stacked]
    simp [z1AboveFires, z1BelowFires, z1StackedFires, stackedCond_iff]
  · rw [zr_eq_z2stacked]
    simp [h1, z2AboveFires, z2BelowFires, z2StackedFires, stackedCond_iff]
  · have hA : z3AboveFires "Stacked with Zone 1 & Zone 2" z1 z2 z3 = false := by
      simp [z3AboveFires]
    have hB : z3BelowFires "Stacked with Zone 1 & Zone 2" z1 z2 z3 = false := by
      simp [z3BelowFires]
    rw [zr_eq_z3stacked]
    simp only [h1, h2, hA, hB, true_and]
    constructor
    · intro h
      simp only [z3StackedFires, Bool.and_eq_true, stackedCond_iff] at h
      exact ⟨h.1.2, h.2⟩
    · rintro ⟨⟨x, y, hx, hy, hxy⟩, x', y', hx', hy', hxy'⟩
      simp only [z3StackedFires, Bool.and_eq_true, stackedCond_iff]
      refine ⟨⟨⟨⟨⟨by simp, ?_⟩, ?_⟩, ?_⟩, ⟨x, y, hx, hy, hxy⟩⟩,
        ⟨x', y', hx', hy', hxy'⟩⟩ <;> simp [hx, hy, hy']

/-- Witness for `c1_stacked_classification` at equal maxima of 10. -/
theorem c1_stacked_classification_witness :
    (zoneRelationship "Stacked with Zone 2" "Above Zone 1" "Above Zone 1 & Zone 2"
        (some 10) (some 10) (some 10) = some "Zone 1 stacked with Zone 2" ↔
      stackedProp (some 10) (some 10))
  ∧ (zoneRelationship "Above Zone 2" "Stacked with Zone 1" "Above Zone 1 & Zone 2"
        (some 10) (some 10) (some 10) = some "Zone 2 stacked with Zone 1" ↔
      stackedProp (some 10) (some 10))
  ∧ (zoneRelationship "Above Zone 2" "Above Zone 1" "Stacked with Zone 1 & Zone 2"
        (some 10) (some 10) (some 10) = some "Zone 3 stacked with Zone 1 & Zone 2" ↔
      stackedProp (some 10) (some 10) ∧ stackedProp (some 10) (some 10)) :=
  ⟨(c1_stacked_classification "Above Zone 2" "Above Zone 1" "Above Zone 1 & Zone 2"
      (some 10) (some 10) (some 10)).1,
   (c1_stacked_classification "Above Zone 2" "Above Zone 1" "Above Zone 1 & Zone 2"
      (some 10) (some 10) (some 10)).2.1 (by decide),
   (c1_stacked_classification "Above Zone 2" "Above Zone 1" "Above Zone 1 & Zone 2"
      (some 10) (some 10) (some 10)).2.2 (by decide) (by decide)⟩

/-- C1 counterexample: Zone 2's condition is the Stacked option, both maxima
are present and differ by 0.05 < 0.1, yet the day is not classified as
Zone 2 stacked: Zone 1's Above arm matches first and wins. -/
theorem c1_counterexample :
    stackedProp (some 10) (some (201 / 20))
  ∧ zoneRelationship "Above Zone 2" "Stacked with Zone 1" "Above Zone 1 & Zone 2"
      (some (201 / 20)) (some 10) none = some "Zone 1 above Zone 2" := by
  constructor
  · exact ⟨10, 201 / 20, rfl, rfl, by norm_num [abs_lt]⟩
  · rw [zr_eq_z1above]
    simp only [z1AboveFires, coalesce, optGt, Option.getD_some, Bool.and_eq_true,
      beq_iff_eq, decide_eq_true_iff]
    norm_num

/-- C2 (amended): when both compared maxima are present (and, for Zone 2 and
Zone 3, no earlier zone's `CASE` arm matches), a zone is classified Above
(resp. Below) exactly when its maximum high is strictly greater (resp. less)
than the compared maxima; but a NULL compared maximum is coalesced to 0 for
Above and to 999999 for Below, so the classification is not always determined
by two existing highs. -/
theorem c2_above_below_classification (z1t z2t z3t : String) (z1 z2 z3 : Option ℚ)
    (x1 x2 x3 : ℚ) (h1 : z1 = some x1) (h2 : z2 = some x2) :
    (zoneRelationship "Above Zone 2" z2t z3t z1 z2 z3 =
        some "Zone 1 above Zone 2" ↔ x2 < x1)
  ∧ (zoneRelationship "Below Zone 2" z2t z3t z1 z2 z3 =
        some "Zone 1 below Zone 2" ↔ x1 < x2)
  ∧ (zone1Fires z1t z1 z2 = false →
      ((zoneRelationship z1t "Above Zone 1" z3t z1 z2 z3 =
          some "Zone 2 above Zone 1" ↔ x1 < x2)
      ∧ (zoneRelationship z1t "Below Zone 1" z3t z1 z2 z3 =
          some "Zone 2 below Zone 1" ↔ x2 < x1)))
  ∧ (z3 = some x3 → zone1Fires z1t z1 z2 = false → zone2Fires z2t z1 z2 = false →
      ((zoneRelationship z1t z2t "Above Zone 1 & Zone 2" z1 z2 z3 =
          some "Zone 3 above Zone 1 & Zone 2" ↔ (x1 < x3 ∧ x2 < x3))
      ∧ (zoneRelationship z1t z2t "Below Zone 1 & Zone 2" z1 z2 z3 =
          some "Zone 3 below Zone 1 & Zone 2" ↔ (x3 < x1 ∧ x3 < x2)))) := by
  subst h1 h2
  refine ⟨?_, ?_, fun hf1 => ⟨?_, ?_⟩, fun h3 hf1 hf2 => ?_⟩
  · rw [zr_eq_z1above]
    simp [z1AboveFires, optGt, coalesce]
  · rw [zr_eq_z1below]
    simp [z1AboveFires, z1BelowFires, optLt, coalesce]
  · rw [zr_eq_z2above]
    simp [hf1, z2AboveFires, optGt, coalesce]
  · rw [zr_eq_z2below]
    simp [hf1, z2AboveFires, z2BelowFires, optLt, coalesce]
  · subst h3
    constructor
    · rw [zr_eq_z3above]
      simp [hf1, hf2, z3AboveFires, optGt, coalesce, and_comm]
    · rw [zr_eq_z3below]
      simp [hf1, hf2, z3AboveFires, z3BelowFires, optGt, optLt, coalesce, and_comm]

/-- Witness for `c2_above_below_classification` at maxima 10, 10, 10. -/
theorem c2_above_below_classification_witness :
    (zoneRelationship "Above Zone 2" "Above Zone 1" "Above Zone 1 & Zone 2"
        (some 10) (some 10) (some 10) = some "Zone 1 above Zone 2" ↔ (10 : ℚ) < 10)
  ∧ (zoneRelationship "Below Zone 2" "Above Zone 1" "Above Zone 1 & Zone 2"
        (some 10) (some 10) (some 10) = some "Zone 1 below Zone 2" ↔ (10 : ℚ) < 10)
  ∧ ((zoneRelationship "Above Zone 2" "Above Zone 1" "Above Zone 1 & Zone 2"
        (some 10) (some 10) (some 10) = some "Zone 2 above Zone 1" ↔ (10 : ℚ) < 10)
    ∧ (zoneRelationship "Above Zone 2" "Below Zone 1" "Above Zone 1 & Zone 2"
        (some 10) (some 10) (some 10) = some "Zone 2 below Zone 1" ↔ (10 : ℚ) < 10))
  ∧ ((zoneRelationship "Above Zone 2" "Above Zone 1" "Above Zone 1 & Zone 2"
        (some 10) (some 10) (some 10) = some "Zone 3 above Zone 1 & Zone 2" ↔
      ((10 : ℚ) < 10 ∧ (10 : ℚ) < 10))
    ∧ (zoneRelationship "Above Zone 2" "Above Zone 1" "Below Zone 1 & Zone 2"
        (some 10) (some 10) (some 10) = some "Zone 3 below Zone 1 & Zone 2" ↔
      ((10 : ℚ) < 10 ∧ (10 : ℚ) < 10))) := by
  have h := c2_above_below_classification "Above Zone 2" "Above Zone 1"
    "Above Zone 1 & Zone 2" (some 10) (some 10) (some 10) 10 10 10 rfl rfl
  exact ⟨h.1, h.2.1, h.2.2.1 (by decide), h.2.2.2 rfl (by decide) (by decide)⟩

/-- C2 counterexample: Zone 2 has no bars in its window (its maximum is NULL),
yet the day is classified 'Zone 1 above Zone 2' because the NULL is coalesced
to 0 — the classification is not determined by a relationship between two
existing highs. -/
theorem c2_counterexample :
    (∀ y : ℚ, (none : Option ℚ) ≠ some y)
  ∧ zoneRelationship "Above Zone 2" "Above Zone 1" "Above Zone 1 & Zone 2"
      (some 5) none none = some "Zone 1 above Zone 2" := by
  constructor
  · exact fun y h => Option.noConfusion h
  · rw [zr_eq_z1above]
    decide

/-- C7: every zone is a 60-minute clock-time window: `zone_filter` returns a
duration of exactly 60 minutes for every user input, and the zone end time
computed in `group_symbols_by_time_zone` is the start time plus exactly 60
minutes as a wrapping clock time. -/
theorem c7_zone_duration_sixty (h m : Nat) :
    (zone_filter h m).2 = 60 ∧
      (h < 24 → m < 60 →
        timeToMinutes (zoneEndTime (zone_filter h m).1) =
          (timeToMinutes (h, m) + 60) % 1440) := by
  refine ⟨rfl, fun hh hm => ?_⟩
  simp only [zone_filter, zoneEndTime, addMinutesToTime, timeToMinutes]
  omega

/-- Witness for `c7_zone_duration_sixty` at hour 23, minute 30. -/
theorem c7_zone_duration_sixty_witness :
    (zone_filter 23 30).2 = 60 ∧
      (23 < 24 → 30 < 60 →
        timeToMinutes (zoneEndTime (zone_filter 23 30).1) =
          (timeToMinutes (23, 30) + 60) % 1440) :=
  c7_zone_duration_sixty 23 30

/-- C3 (amended): for a 60-minute zone window starting at `oh:sm`, the pandas
filter `filter_zones` selects exactly the bars in the half-open wrapping
window [start, start+60), including the far side of midnight; the SQL
`BETWEEN` predicate of `group_symbols_by_time_zone` selects the closed
interval [start, start+60] when the window stays within the day, and selects
no bars at all when start+60 reaches or passes midnight. -/
theorem c3_zone_windows (oh sm h m : Nat) (hoh : oh < 24) (hsm : sm < 60)
    (hh : h < 24) (hm : m < 60) :
    (filterZonesMember oh sm 60 h m ↔
      ((timeToMinutes (oh, sm) ≤ timeToMinutes (h, m) ∧
          timeToMinutes (h, m) < timeToMinutes (oh, sm) + 60) ∨
        timeToMinutes (h, m) + 1440 < timeToMinutes (oh, sm) + 60))
  ∧ (∀ t : Nat, timeToMinutes (oh, sm) + 60 < 1440 →
      (sqlZoneMember (timeToMinutes (oh, sm))
          (timeToMinutes (zoneEndTime (oh, sm))) t ↔
        timeToMinutes (oh, sm) ≤ t ∧ t ≤ timeToMinutes (oh, sm) + 60))
  ∧ (∀ t : Nat, 1440 ≤ timeToMinutes (oh, sm) + 60 → 0 < timeToMinutes (oh, sm) →
      ¬ sqlZoneMember (timeToMinutes (oh, sm))
          (timeToMinutes (zoneEndTime (oh, sm))) t) := by
  refine ⟨?_, ?_, ?_⟩
  · simp only [filterZonesMember, timeToMinutes]
    split_ifs with hc <;> omega
  · intro t hlt
    simp only [sqlZoneMember, zoneEndTime, addMinutesToTime, timeToMinutes] at hlt ⊢
    omega
  · intro t hge hpos
    simp only [sqlZoneMember, zoneEndTime, addMinutesToTime, timeToMinutes] at hge hpos ⊢
    omega

/-- Witness for `c3_zone_windows` at the midnight-crossing window 23:30. -/
theorem c3_zone_windows_witness :
    (filterZonesMember 23 30 60 0 10 ↔
      ((timeToMinutes (23, 30) ≤ timeToMinutes (0, 10) ∧
          timeToMinutes (0, 10) < timeToMinutes (23, 30) + 60) ∨
        timeToMinutes (0, 10) + 1440 < timeToMinutes (23, 30) + 60))
  ∧ (∀ t : Nat, timeToMinutes (23, 30) + 60 < 1440 →
      (sqlZoneMember (timeToMinutes (23, 30))
          (timeToMinutes (zoneEndTime (23, 30))) t ↔
        timeToMinutes (23, 30) ≤ t ∧ t ≤ timeToMinutes (23, 30) + 60))
  ∧ (∀ t : Nat, 1440 ≤ timeToMinutes (23, 30) + 60 → 0 < timeToMinutes (23, 30) →
      ¬ sqlZoneMember (timeToMinutes (23, 30))
          (timeToMinutes (zoneEndTime (23, 30))) t) :=
  c3_zone_windows 23 30 0 10 (by decide) (by decide) (by decide) (by decide)

/-- C3 counterexample: for the configurable zone start 23:30 the 60-minute
window crosses midnight.  The bar at 00:10 lies in that window (far side of
midnight) and `filter_zones` keeps it, but the SQL `BETWEEN` predicate of
`group_symbols_by_time_zone` rejects it, so the SQL side does not include
bars on the far side of midnight. -/
theorem c3_sql_misses_midnight_crossing :
    timeToMinutes (0, 10) + 1440 < timeToMinutes (23, 30) + 60
  ∧ filterZonesMember 23 30 60 0 10
  ∧ ¬ sqlZoneMember (timeToMinutes (23, 30))
        (timeToMinutes (zoneEndTime (23, 30))) (timeToMinutes (0, 10)) := by
  refine ⟨by decide, ?_, by decide⟩
  simp only [filterZonesMember]
  norm_num

/-! ## Midnight-open retracement (analysis.py, `get_retracement_stats`)

All bars of one selected day, timestamped by seconds since that day's
midnight; the table's `hour` and `minute` columns are the fields derived from
`ts_event`. -/

/-- One OHLCV bar of a single trading day. -/
structure Bar where
  ts : Nat
  openPrice : ℚ
  high : ℚ
  low : ℚ

/-- The derived `hour` column / `EXTRACT(HOUR FROM ts_event)`. -/
def hourOf (b : Bar) : Nat := b.ts / 3600

/-- The derived `minute` column / `EXTRACT(MINUTE FROM ts_event)`. -/
def minuteOf (b : Bar) : Nat := b.ts % 3600 / 60

/-- The `midnight_opens` CTE restricted to one day: the `open` of every bar
with `hour = 0 AND minute = 0`. -/
def midnightOpens (bars : List Bar) : List ℚ :=
  (bars.filter (fun b => decide (hourOf b = 0 ∧ minuteOf b = 0))).map (·.openPrice)

/-- The join condition of the `first_retracements` CTE: bars of the day with
`hour >= 8 AND hour <= 15 AND low <= midnight_open AND high >= midnight_open`
for some midnight open of the day. -/
def retracementMatches (opens : List ℚ) (bars : List Bar) : List Bar :=
  bars.filter (fun b =>
    decide (8 ≤ hourOf b ∧ hourOf b ≤ 15 ∧ ∃ o ∈ opens, b.low ≤ o ∧ o ≤ b.high))

/-- `MIN(f.ts_event)` over the joined bars (`first_retracement_time`). -/
def firstRetracementTime (opens : List ℚ) (bars : List Bar) : Option Nat :=
  ((retracementMatches opens bars).map Bar.ts).min?

/-- The `bucketed` CTE restricted to one day: `NULL` when the day has no
midnight bar (it is absent from `midnight_opens`), otherwise `-1` without a
retracement and `(EXTRACT(HOUR ..) - 8) * 2 + FLOOR(EXTRACT(MINUTE ..) / 30)`
with one. -/
def dayBucket (bars : List Bar) : Option Int :=
  if (midnightOpens bars).isEmpty then none
  else
    match firstRetracementTime (midnightOpens bars) bars with
    | some t => some ((((t / 3600 : Nat) : Int) - 8) * 2 + ((t % 3600 / 60 / 30 : Nat) : Int))
    | none => some (-1)

lemma firstRetracementTime_spec (opens : List ℚ) (bars : List Bar) (t : Nat) :
    firstRetracementTime opens bars = some t ↔
      (∃ b ∈ bars, b.ts = t ∧
          (8 ≤ hourOf b ∧ hourOf b ≤ 15 ∧ ∃ o ∈ opens, b.low ≤ o ∧ o ≤ b.high))
      ∧ ∀ b ∈ bars,
          (8 ≤ hourOf b ∧ hourOf b ≤ 15 ∧ ∃ o ∈ opens, b.low ≤ o ∧ o ≤ b.high) →
          t ≤ b.ts := by
  unfold firstRetracementTime retracementMatches
  rw [List.min?_eq_some_iff Nat.le_refl (fun a b => min_choice a b)
    (fun a b c => le_min_iff)]
  simp only [List.mem_map, List.mem_filter, decide_eq_true_iff]
  constructor
  · rintro ⟨⟨b, ⟨hb, hcond⟩, hts⟩, hmin⟩
    exact ⟨⟨b, hb, hts, hcond⟩, fun b' hb' hcond' =>
      hmin b'.ts ⟨b', ⟨hb', hcond'⟩, rfl⟩⟩
  · rintro ⟨⟨b, hb, hts, hcond⟩, hmin⟩
    exact ⟨⟨b, ⟨hb, hcond⟩, hts⟩, fun u ⟨b', ⟨hb', hcond'⟩, hts'⟩ =>
      hts' ▸ hmin b' hb' hcond'⟩

lemma dayBucket_nonneg_bounds (bars : List Bar) (k : Int)
    (h : dayBucket bars = some k) (hk : k ≠ -1) : 0 ≤ k ∧ k ≤ 15 := by
  unfold dayBucket at h
  split_ifs at h with he
  rcases hft : firstRetracementTime (midnightOpens bars) bars with _ | t
  · rw [hft] at h
    simp only [Option.some.injEq] at h
    exact absurd h.symm hk
  · rw [hft] at h
    simp only [Option.some.injEq] at h
    obtain ⟨⟨b, -, hts, h8, h15, -⟩, -⟩ :=
      (firstRetracementTime_spec (midnightOpens bars) bars t).mp hft
    unfold hourOf at h8 h15
    subst hts h
    omega

lemma dayBucket_of_opens (bars : List Bar) (mopen : ℚ)
    (hmo : midnightOpens bars = [mopen]) :
    dayBucket bars =
      match firstRetracementTime [mopen] bars with
      | some t => some ((((t / 3600 : Nat) : Int) - 8) * 2 +
          ((t % 3600 / 60 / 30 : Nat) : Int))
      | none => some (-1) := by
  unfold dayBucket
  rw [hmo]
  rfl

/-- C4: for a selected day with a (unique) midnight bar, `get_retracement_stats`
assigns bucket `-1` exactly when no bar with hour between 8 and 15 straddles
the midnight open; otherwise it assigns `(hour - 8) * 2 + minute / 30` of the
earliest such bar; and every bucket other than `-1` lies in `0..15`. -/
theorem c4_retracement_stats (bars : List Bar) (mopen : ℚ)
    (hmo : midnightOpens bars = [mopen]) :
    (dayBucket bars = some (-1) ↔
      ∀ b ∈ bars, ¬ (8 ≤ hourOf b ∧ hourOf b ≤ 15 ∧ b.low ≤ mopen ∧ mopen ≤ b.high))
  ∧ (∀ b ∈ bars,
      (8 ≤ hourOf b ∧ hourOf b ≤ 15 ∧ b.low ≤ mopen ∧ mopen ≤ b.high) →
      (∀ b' ∈ bars,
        (8 ≤ hourOf b' ∧ hourOf b' ≤ 15 ∧ b'.low ≤ mopen ∧ mopen ≤ b'.high) →
        b.ts ≤ b'.ts) →
      dayBucket bars = some (((hourOf b : Int) - 8) * 2 + (minuteOf b / 30 : Nat)))
  ∧ (∀ k : Int, dayBucket bars = some k → k ≠ -1 → 0 ≤ k ∧ k ≤ 15) := by
  refine ⟨?_, ?_, fun k hk hne => dayBucket_nonneg_bounds bars k hk hne⟩
  · rw [dayBucket_of_opens bars mopen hmo]
    rcases hft : firstRetracementTime [mopen] bars with _ | t
    · constructor
      · intro _ b hb hcond
        unfold firstRetracementTime retracementMatches at hft
        rw [List.min?_eq_none_iff, List.map_eq_nil_iff, List.filter_eq_nil_iff] at hft
        have hnb := hft b hb
        simp only [decide_eq_true_iff] at hnb
        exact hnb ⟨hcond.1, hcond.2.1, mopen, by simp, hcond.2.2⟩
      · intro _
        rfl
    · obtain ⟨⟨b, hb, hts, h8, h15, o, ho, hlo, hhi⟩, -⟩ :=
        (firstRetracementTime_spec [mopen] bars t).mp hft
      simp only [List.mem_singleton] at ho
      subst ho
      constructor
      · intro habs
        exfalso
        simp only [Option.some.injEq] at habs
        unfold hourOf at h8 h15
        subst hts
        omega
      · intro h
        exact absurd ⟨h8, h15, hlo, hhi⟩ (h b hb)
  · intro b hb hcond hmin
    have hft : firstRetracementTime [mopen] bars = some b.ts := by
      rw [firstRetracementTime_spec]
      constructor
      · exact ⟨b, hb, rfl, hcond.1, hcond.2.1, mopen, by simp, hcond.2.2⟩
      · rintro b' hb' ⟨h8, h15, o, ho, hlo, hhi⟩
        simp only [List.mem_singleton] at ho
        subst ho
        exact hmin b' hb' ⟨h8, h15, hlo, hhi⟩
    rw [dayBucket_of_opens bars mopen hmo, hft]
    unfold hourOf minuteOf
    rfl

/-! ## Time-bucket labels (analysis.py, charts.py) -/

/-- Python `f"{n:02d}"` for `n < 100`. -/
def pad2 (n : Nat) : String :=
  if n < 10 then "0" ++ toString n else toString n

/-- analysis.py `get_time_bucket_labels`: 30-minute bucket labels from 08:00
to 16:00, built from `hour in range(8, 16)` and `minute in [0, 30]`. -/
def get_time_bucket_labels : List String :=
  ((List.range' 8 8).map (fun hour =>
    [0, 30].map (fun minute =>
      let endHour := if minute = 0 then hour else hour + 1
      let endMinute := if minute = 0 then 30 else 0
      pad2 hour ++ ":" ++ pad2 minute ++ "-" ++ pad2 endHour ++ ":" ++ pad2 endMinute))).flatten

/-- The `while current < end` loop of `get_zone1_time_bucket_labels`, with
clock times in minutes since midnight and a 30-minute step. -/
def zone1LabelsFrom (current endT : Nat) : List String :=
  if current < endT then
    (pad2 (current / 60) ++ ":" ++ pad2 (current % 60) ++ "-" ++
        pad2 ((current + 30) / 60) ++ ":" ++ pad2 ((current + 30) % 60)) ::
      zone1LabelsFrom (current + 30) endT
  else []
termination_by endT - current
decreasing_by omega

/-- analysis.py `get_zone1_time_bucket_labels`: 30-minute bucket labels from
09:35 until 16:00. -/
def get_zone1_time_bucket_labels : List String :=
  zone1LabelsFrom (9 * 60 + 35) (16 * 60)

/-- charts.py label lookup
`labels[int(x)] if x < len(labels) else 'Unknown'`. -/
def bucketLabel (labels : List String) (x : Nat) : String :=
  if x < labels.length then labels.getD x "" else "Unknown"

/-- The bucket computed by `get_zone1_retracement_stats` for a day whose Zone 3
formation ends at second-of-day `s` (`MAX(ts_event)` over bars with `hour = 9
AND minute BETWEEN 30 AND 35`) and whose first Zone 1 retracement is at
second-of-day `t`: `FLOOR(EXTRACT(EPOCH FROM (t - s)) / 1800)`. -/
def zone1RetracementBucket (s t : Nat) : Nat := (t - s) / 1800

/-- A concrete midnight bar: 00:00:00, all prices 10. -/
def mbar : Bar := ⟨0, 10, 10, 10⟩

/-- A concrete retracing bar: 09:00:00, low 9, high 11. -/
def rbar : Bar := ⟨32400, 10, 11, 9⟩

/-- Witness for `c4_retracement_stats` on a two-bar day with midnight open 10. -/
theorem c4_retracement_stats_witness :
    (dayBucket [mbar, rbar] = some (-1) ↔
      ∀ b ∈ [mbar, rbar],
        ¬ (8 ≤ hourOf b ∧ hourOf b ≤ 15 ∧ b.low ≤ 10 ∧ (10 : ℚ) ≤ b.high))
  ∧ (∀ b ∈ [mbar, rbar],
      (8 ≤ hourOf b ∧ hourOf b ≤ 15 ∧ b.low ≤ 10 ∧ (10 : ℚ) ≤ b.high) →
      (∀ b' ∈ [mbar, rbar],
        (8 ≤ hourOf b' ∧ hourOf b' ≤ 15 ∧ b'.low ≤ 10 ∧ (10 : ℚ) ≤ b'.high) →
        b.ts ≤ b'.ts) →
      dayBucket [mbar, rbar] =
        some (((hourOf b : Int) - 8) * 2 + (minuteOf b / 30 : Nat)))
  ∧ (∀ k : Int, dayBucket [mbar, rbar] = some k → k ≠ -1 → 0 ≤ k ∧ k ≤ 15) :=
  c4_retracement_stats [mbar, rbar] 10 (by decide)

/-- C10: `get_time_bucket_labels` has exactly 16 labels and
`get_zone1_time_bucket_labels` exactly 13; every bucket `0..15` that
`get_retracement_stats` can produce, and every Zone 1 bucket of a retracement
strictly before 16:00, indexes into the respective label list, so the chart
lookup takes the label branch and never the `'Unknown'` fallback. -/
theorem c10_label_coverage :
    get_time_bucket_labels.length = 16
  ∧ get_zone1_time_bucket_labels.length = 13
  ∧ (∀ (bars : List Bar) (k : Int), dayBucket bars = some k → 0 ≤ k →
      k.toNat < get_time_bucket_labels.length ∧
        bucketLabel get_time_bucket_labels k.toNat =
          get_time_bucket_labels.getD k.toNat "")
  ∧ (∀ s t : Nat, s / 3600 = 9 → 30 ≤ s % 3600 / 60 → s % 3600 / 60 ≤ 35 →
      s < t → t < 16 * 3600 →
      zone1RetracementBucket s t < get_zone1_time_bucket_labels.length ∧
        bucketLabel get_zone1_time_bucket_labels (zone1RetracementBucket s t) =
          get_zone1_time_bucket_labels.getD (zone1RetracementBucket s t) "") := by
  have h16 : get_time_bucket_labels.length = 16 := by rfl
  have h13 : get_zone1_time_bucket_labels.length = 13 := by
    simp [get_zone1_time_bucket_labels, zone1LabelsFrom]
  refine ⟨h16, h13, ?_, ?_⟩
  · intro bars k hk hk0
    have hb := dayBucket_nonneg_bounds bars k hk (by omega)
    have hlt : k.toNat < get_time_bucket_labels.length := by
      rw [h16]; omega
    exact ⟨hlt, by rw [bucketLabel, if_pos hlt]⟩
  · intro s t h9 h30 h35 hst ht16
    have hs : 34200 ≤ s ∧ s ≤ 34559 := by omega
    have hlt : zone1RetracementBucket s t < get_zone1_time_bucket_labels.length := by
      rw [h13]
      unfold zone1RetracementBucket
      omega
    exact ⟨hlt, by rw [bucketLabel, if_pos hlt]⟩

/-- Witness for `c10_label_coverage` on the concrete two-bar day (bucket 2)
and on a Zone 1 retracement at 10:00:00 after Zone 3 formed at 09:35:00. -/
theorem c10_label_coverage_witness :
    ((2 : Int).toNat < get_time_bucket_labels.length ∧
      bucketLabel get_time_bucket_labels (2 : Int).toNat =
        get_time_bucket_labels.getD (2 : Int).toNat "")
  ∧ (zone1RetracementBucket 34500 36000 < get_zone1_time_bucket_labels.length ∧
      bucketLabel get_zone1_time_bucket_labels (zone1RetracementBucket 34500 36000) =
        get_zone1_time_bucket_labels.getD (zone1RetracementBucket 34500 36000) "") :=
  ⟨c10_label_coverage.2.2.1 [mbar, rbar] 2 (by decide) (by decide),
   c10_label_coverage.2.2.2 34500 36000 (by decide) (by decide) (by decide)
     (by decide) (by decide)⟩

/-! ## High/low-in-open probabilities (analysis.py) -/

/-- One OHLCV row keyed by its day ordinal and derived hour. -/
structure Row where
  day : Nat
  hour : Nat
  high : ℚ
  low : ℚ

/-- The `day_highs` CTE of `get_high_in_open_probability` at day `d`:
`MAX(high)` over the day's bars with `hour >= 9 AND hour <= 15`, NULL when
the day has none. -/
def dayHigh (rows : List Row) (d : Nat) : Option ℚ :=
  ((rows.filter (fun r => decide (r.day = d ∧ 9 ≤ r.hour ∧ r.hour ≤ 15))).map (·.high)).max?

/-- The `EXISTS` test of `get_high_in_open_probability`: some bar of the day
at `hour = 9` attains the day high. -/
def qualifiesHigh (rows : List Row) (d : Nat) : Bool :=
  match dayHigh rows d with
  | some m => rows.any (fun r => decide (r.day = d ∧ r.hour = 9 ∧ r.high = m))
  | none => false

/-- The scalar `COUNT(*)` of `get_high_in_open_probability`: distinct selected
days whose day high is attained at hour 9. -/
def highInOpenCount (rows : List Row) (selected : List Nat) : Nat :=
  (selected.dedup.filter (fun d => qualifiesHigh rows d)).length

/-- analysis.py `get_high_in_open_probability`:
`result / total_days if total_days > 0 else 0`. -/
def get_high_in_open_probability (rows : List Row) (selected : List Nat) : ℚ :=
  if 0 < selected.length then (highInOpenCount rows selected : ℚ) / selected.length
  else 0

/-- The `day_lows` CTE of `get_low_in_open_probability` at day `d`. -/
def dayLow (rows : List Row) (d : Nat) : Option ℚ :=
  ((rows.filter (fun r => decide (r.day = d ∧ 9 ≤ r.hour ∧ r.hour ≤ 15))).map (·.low)).min?

/-- The `EXISTS` test of `get_low_in_open_probability`. -/
def qualifiesLow (rows : List Row) (d : Nat) : Bool :=
  match dayLow rows d with
  | some m => rows.any (fun r => decide (r.day = d ∧ r.hour = 9 ∧ r.low = m))
  | none => false

/-- The scalar `COUNT(*)` of `get_low_in_open_probability`. -/
def lowInOpenCount (rows : List Row) (selected : List Nat) : Nat :=
  (selected.dedup.filter (fun d => qualifiesLow rows d)).length

/-- analysis.py `get_low_in_open_probability`:
`result / total_days if total_days > 0 else 0`. -/
def get_low_in_open_probability (rows : List Row) (selected : List Nat) : ℚ :=
  if 0 < selected.length then (lowInOpenCount rows selected : ℚ) / selected.length
  else 0

lemma count_le_selected_length (selected : List Nat) (p : Nat → Bool) :
    (selected.dedup.filter p).length ≤ selected.length :=
  le_trans (List.length_filter_le p selected.dedup)
    (List.Sublist.length_le (List.dedup_sublist selected))

lemma ratio_bounds (c n : Nat) (hc : c ≤ n) (hn : 0 < n) :
    0 ≤ (c : ℚ) / n ∧ (c : ℚ) / n ≤ 1 := by
  constructor
  · positivity
  · rw [div_le_one (by positivity)]
    exact_mod_cast hc

/-- C9: both open-probability helpers return 0 on an empty day list and
otherwise the qualifying-day count over the list length; the result always
lies in [0, 1] and the division is guarded by the length test. -/
theorem c9_open_probability_bounds (rows : List Row) (selected : List Nat) :
    (selected = [] →
      get_high_in_open_probability rows selected = 0 ∧
        get_low_in_open_probability rows selected = 0)
  ∧ (selected ≠ [] →
      get_high_in_open_probability rows selected =
          (highInOpenCount rows selected : ℚ) / selected.length ∧
        get_low_in_open_probability rows selected =
          (lowInOpenCount rows selected : ℚ) / selected.length)
  ∧ (0 ≤ get_high_in_open_probability rows selected ∧
      get_high_in_open_probability rows selected ≤ 1)
  ∧ (0 ≤ get_low_in_open_probability rows selected ∧
      get_low_in_open_probability rows selected ≤ 1) := by
  cases selected with
  | nil =>
    refine ⟨fun _ => ⟨rfl, rfl⟩, fun h => absurd rfl h, ?_, ?_⟩ <;>
      simp [get_high_in_open_probability, get_low_in_open_probability]
  | cons d ds =>
    have hn : 0 < (d :: ds).length := by simp
    refine ⟨fun h => absurd h (List.cons_ne_nil d ds), fun _ => ?_, ?_, ?_⟩
    · rw [get_high_in_open_probability, get_low_in_open_probability,
        if_pos hn, if_pos hn]
      exact ⟨rfl, rfl⟩
    · rw [get_high_in_open_probability, if_pos hn]
      exact ratio_bounds _ _ (count_le_selected_length (d :: ds) _) hn
    · rw [get_low_in_open_probability, if_pos hn]
      exact ratio_bounds _ _ (count_le_selected_length (d :: ds) _) hn

/-- Witness for `c9_open_probability_bounds` on an empty and a one-day list. -/
theorem c9_open_probability_bounds_witness :
    (get_high_in_open_probability [] [] = 0 ∧
      get_low_in_open_probability [] [] = 0)
  ∧ (get_high_in_open_probability [] [5] =
        (highInOpenCount [] [5] : ℚ) / ([5] : List Nat).length ∧
      get_low_in_open_probability [] [5] =
        (lowInOpenCount [] [5] : ℚ) / ([5] : List Nat).length)
  ∧ (0 ≤ get_high_in_open_probability [] [5] ∧
      get_high_in_open_probability [] [5] ≤ 1) :=
  ⟨(c9_open_probability_bounds [] []).1 rfl,
   (c9_open_probability_bounds [] [5]).2.1 (by decide),
   (c9_open_probability_bounds [] [5]).2.2.1⟩

/-! ## Error handling of the data-loading helpers (data_utils.py)

Each helper wraps its whole body in `try/except`; the body's outcome (the
query result, or the raised exception) is passed in as an `Except` value. -/

/-- A calendar date (year, month, day). -/
structure Date where
  year : Nat
  month : Nat
  dayOfMonth : Nat
deriving DecidableEq

/-- data_utils.py `load_categories`: sorted list of categories on success,
`[]` on any exception. -/
def load_categories (q : Except String (List String)) : List String :=
  match q with
  | .ok cats => cats.mergeSort (fun a b => decide (a ≤ b))
  | .error _ => []

/-- data_utils.py `load_symbols`: sorted list of symbols on success,
`[]` on any exception. -/
def load_symbols (q : Except String (List String)) : List String :=
  match q with
  | .ok syms => syms.mergeSort (fun a b => decide (a ≤ b))
  | .error _ => []

/-- data_utils.py `get_date_range`: the queried (min, max) dates on success,
the fixed fallback `(2020-01-01, 2023-12-31)` on any exception. -/
def get_date_range (q : Except String (Date × Date)) : Date × Date :=
  match q with
  | .ok r => r
  | .error _ => (⟨2020, 1, 1⟩, ⟨2023, 12, 31⟩)

/-- data_utils.py `load_data`: the queried rows on success, an empty
DataFrame on any exception. -/
def load_data {α : Type} (q : Except String (List α)) : List α :=
  match q with
  | .ok df => df
  | .error _ => []

/-- C6: every data-loading helper of data_utils.py catches a query failure
instead of propagating it: on any exception `load_categories` and
`load_symbols` return `[]`, `load_data` returns an empty DataFrame, and
`get_date_range` returns the fallback range 2020-01-01 .. 2023-12-31. -/
theorem c6_load_errors_caught {α : Type} (e : String) :
    load_categories (.error e) = []
  ∧ load_symbols (.error e) = []
  ∧ load_data (α := α) (.error e) = []
  ∧ get_date_range (.error e) = (⟨2020, 1, 1⟩, ⟨2023, 12, 31⟩) :=
  ⟨rfl, rfl, rfl, rfl⟩

/-! ## Control flow of `main` (app.py)

`main` is modelled as a function of the widget outputs (the two dates as day
ordinals, the Refresh button) and of the outcome of each analysis query,
acting on the Streamlit session state.  The outer `Option` of each session
field is presence of the key in `st.session_state`. -/

/-- The nine cached result keys of `st.session_state` (app.py lines 71-88). -/
structure Session (α : Type) where
  dfGrouped : Option (Option (List α))
  retracementDf : Option (Option α)
  zone1RetracementDf : Option (Option α)
  highProb : Option (Option α)
  highDistDf : Option (Option α)
  lowProb : Option (Option α)
  lowDistDf : Option (Option α)
  bullishSummary : Option (Option α)
  bullishDaily : Option (Option α)

/-- app.py lines 71-88: each key absent from the session is set to `None`;
present keys keep their values. -/
def initSession {α : Type} (s : Session α) : Session α where
  dfGrouped := some (s.dfGrouped.getD none)
  retracementDf := some (s.retracementDf.getD none)
  zone1RetracementDf := some (s.zone1RetracementDf.getD none)
  highProb := some (s.highProb.getD none)
  highDistDf := some (s.highDistDf.getD none)
  lowProb := some (s.lowProb.getD none)
  lowDistDf := some (s.lowDistDf.getD none)
  bullishSummary := some (s.bullishSummary.getD none)
  bullishDaily := some (s.bullishDaily.getD none)

/-- Outcome of one run of `main`: the final session state, the inline error
message displayed (if any), and the analysis queries executed, in order. -/
structure MainResult (α : Type) where
  session : Session α
  errorMsg : Option String
  queriesRun : List String

/-- app.py `main` (lines 94-199): date validation, then — on Refresh or a
cold cache — the grouping query followed by the three guarded analysis
blocks, each `except` branch showing an inline error and returning. -/
def mainModel {α : Type} (startDate endDate : Option Nat) (refresh : Bool)
    (s0 : Session α) (groupQ : Except String (List α))
    (retrQ z1Q hpQ hdQ lpQ ldQ : Except String α)
    (bbQ : Except String (α × α)) : MainResult α :=
  let s := initSession s0
  match startDate, endDate with
  | some sd, some ed =>
    if ed < sd then
      ⟨s, some "Align the stars: Start date must be before or equal to the end date.", []⟩
    else if refresh || (s.dfGrouped.getD none).isNone then
      match groupQ with
      | .error e => ⟨s, some ("Error in group_symbols_by_time_zone: " ++ e),
          ["group_symbols_by_time_zone"]⟩
      | .ok df =>
        let s1 := { s with dfGrouped := some (some df) }
        if df.isEmpty then
          ⟨s1, none, ["group_symbols_by_time_zone"]⟩
        else
          match retrQ with
          | .error e => ⟨s1, some ("Error in retracement stats: " ++ e),
              ["group_symbols_by_time_zone", "get_retracement_stats"]⟩
          | .ok r =>
            let s2 := { s1 with retracementDf := some (some r) }
            match z1Q with
            | .error e => ⟨s2, some ("Error in retracement stats: " ++ e),
                ["group_symbols_by_time_zone", "get_retracement_stats",
                 "get_zone1_retracement_stats"]⟩
            | .ok z1 =>
              let s3 := { s2 with zone1RetracementDf := some (some z1) }
              match hpQ with
              | .error e => ⟨s3, some ("Error in daily stats: " ++ e),
                  ["group_symbols_by_time_zone", "get_retracement_stats",
                   "get_zone1_retracement_stats", "get_high_in_open_probability"]⟩
              | .ok hp =>
                let s4 := { s3 with highProb := some (some hp) }
                match hdQ with
                | .error e => ⟨s4, some ("Error in daily stats: " ++ e),
                    ["group_symbols_by_time_zone", "get_retracement_stats",
                     "get_zone1_retracement_stats", "get_high_in_open_probability",
                     "get_high_distribution"]⟩
                | .ok hd =>
                  let s5 := { s4 with highDistDf := some (some hd) }
                  match lpQ with
                  | .error e => ⟨s5, some ("Error in daily stats: " ++ e),
                      ["group_symbols_by_time_zone", "get_retracement_stats",
                       "get_zone1_retracement_stats", "get_high_in_open_probability",
                       "get_high_distribution", "get_low_in_open_probability"]⟩
                  | .ok lp =>
                    let s6 := { s5 with lowProb := some (some lp) }
                    match ldQ with
                    | .error e => ⟨s6, some ("Error in daily stats: " ++ e),
                        ["group_symbols_by_time_zone", "get_retracement_stats",
                         "get_zone1_retracement_stats", "get_high_in_open_probability",
                         "get_high_distribution", "get_low_in_open_probability",
                         "get_low_distribution"]⟩
                    | .ok ld =>
                      let s7 := { s6 with lowDistDf := some (some ld) }
                      match bbQ with
                      | .error e => ⟨s7, some ("Error in bullish/bearish stats: " ++ e),
                          ["group_symbols_by_time_zone", "get_retracement_stats",
                           "get_zone1_retracement_stats", "get_high_in_open_probability",
                           "get_high_distribution", "get_low_in_open_probability",
                           "get_low_distribution", "get_bullish_bearish_stats"]⟩
                      | .ok bb =>
                        let s8 := { s7 with bullishSummary := some (some bb.1) }
                        ⟨{ s8 with bullishDaily := some (some bb.2) }, none,
                          ["group_symbols_by_time_zone", "get_retracement_stats",
                           "get_zone1_retracement_stats", "get_high_in_open_probability",
                           "get_high_distribution", "get_low_in_open_probability",
                           "get_low_distribution", "get_bullish_bearish_stats"]⟩
    else
      ⟨s, none, []⟩
  | _, _ => ⟨s, some "Please select a valid date range.", []⟩

/-- Every present session key keeps its value from `s0` to `s1`. -/
def cachedPreserved {α : Type} (s0 s1 : Session α) : Prop :=
  (∀ v, s0.dfGrouped = some v → s1.dfGrouped = some v)
  ∧ (∀ v, s0.retracementDf = some v → s1.retracementDf = some v)
  ∧ (∀ v, s0.zone1RetracementDf = some v → s1.zone1RetracementDf = some v)
  ∧ (∀ v, s0.highProb = some v → s1.highProb = some v)
  ∧ (∀ v, s0.highDistDf = some v → s1.highDistDf = some v)
  ∧ (∀ v, s0.lowProb = some v → s1.lowProb = some v)
  ∧ (∀ v, s0.lowDistDf = some v → s1.lowDistDf = some v)
  ∧ (∀ v, s0.bullishSummary = some v → s1.bullishSummary = some v)
  ∧ (∀ v, s0.bullishDaily = some v → s1.bullishDaily = some v)

/-- C5: when the selected start date is strictly after the selected end date,
`main` shows the inline bad-date-range error, executes no analysis query, and
every cached session-state result is unchanged. -/
theorem c5_bad_date_range {α : Type} (sd ed : Nat) (hlt : ed < sd) (refresh : Bool)
    (s0 : Session α) (groupQ : Except String (List α))
    (retrQ z1Q hpQ hdQ lpQ ldQ : Except String α) (bbQ : Except String (α × α)) :
    (mainModel (some sd) (some ed) refresh s0 groupQ retrQ z1Q hpQ hdQ lpQ ldQ bbQ).errorMsg =
        some "Align the stars: Start date must be before or equal to the end date."
  ∧ (mainModel (some sd) (some ed) refresh s0 groupQ retrQ z1Q hpQ hdQ lpQ ldQ bbQ).queriesRun = []
  ∧ cachedPreserved s0
      (mainModel (some sd) (some ed) refresh s0 groupQ retrQ z1Q hpQ hdQ lpQ ldQ bbQ).session := by
  have hm : mainModel (some sd) (some ed) refresh s0 groupQ retrQ z1Q hpQ hdQ lpQ ldQ bbQ =
      ⟨initSession s0,
        some "Align the stars: Start date must be before or equal to the end date.", []⟩ := by
    simp only [mainModel]
    rw [if_pos hlt]
  rw [hm]
  refine ⟨rfl, rfl, ?_⟩
  unfold cachedPreserved initSession
  refine ⟨?_, ?_, ?_, ?_, ?_, ?_, ?_, ?_, ?_⟩ <;>
    · intro v hv
      simp [hv]

/-- Witness for `c5_bad_date_range` with a warm cache and dates 5 > 3. -/
theorem c5_bad_date_range_witness :
    (mainModel (α := Nat) (some 5) (some 3) false
        ⟨some (some [1]), some none, none, none, none, none, none, none, none⟩
        (.ok []) (.ok 0) (.ok 0) (.ok 0) (.ok 0) (.ok 0) (.ok 0) (.ok (0, 0))).errorMsg =
        some "Align the stars: Start date must be before or equal to the end date."
  ∧ (mainModel (α := Nat) (some 5) (some 3) false
        ⟨some (some [1]), some none, none, none, none, none, none, none, none⟩
        (.ok []) (.ok 0) (.ok 0) (.ok 0) (.ok 0) (.ok 0) (.ok 0) (.ok (0, 0))).queriesRun = []
  ∧ cachedPreserved ⟨some (some [1]), some none, none, none, none, none, none, none, none⟩
      (mainModel (α := Nat) (some 5) (some 3) false
        ⟨some (some [1]), some none, none, none, none, none, none, none, none⟩
        (.ok []) (.ok 0) (.ok 0) (.ok 0) (.ok 0) (.ok 0) (.ok 0) (.ok (0, 0))).session :=
  c5_bad_date_range 5 3 (by decide) false _ _ _ _ _ _ _ _ _

/-! ## Columns read from `f_ohlcv` (every SQL query of the program)

Each entry transcribes, from one query text, the set of `f_ohlcv` columns the
query references (in SELECT, WHERE, GROUP BY, JOIN or window clauses). -/

/-- The columns of `f_ohlcv` named in the interface contract. -/
def contractColumns : List String :=
  ["ts_event", "open", "high", "low", "close", "volume", "symbol", "category",
   "hour", "minute"]

/-- The `f_ohlcv` columns read by each SQL query the program issues,
keyed by the issuing function. -/
def queryColumnReads : List (String × List String) :=
  [("slicers.get_date_range", ["ts_event"]),
   ("slicers.group_symbols_by_time_zone", ["ts_event", "high", "symbol", "category"]),
   ("data_utils.load_categories", ["category"]),
   ("data_utils.load_symbols", ["symbol", "category"]),
   ("data_utils.get_date_range", ["ts_event"]),
   ("data_utils.load_data",
    ["ts_event", "open", "high", "low", "close", "volume", "instrument_id",
     "hour", "minute", "category", "symbol"]),
   ("analysis.get_retracement_stats", ["ts_event", "open", "hour", "minute", "low", "high"]),
   ("analysis.get_zone1_retracement_stats", ["ts_event", "open", "hour", "minute", "low", "high"]),
   ("analysis.get_high_in_open_probability", ["ts_event", "high", "hour"]),
   ("analysis.get_low_in_open_probability", ["ts_event", "low", "hour"]),
   ("analysis.get_high_distribution", ["ts_event", "high"]),
   ("analysis.get_low_distribution", ["ts_event", "low"]),
   ("analysis.get_bullish_bearish_stats", ["ts_event", "open", "close", "hour", "minute"])]

/-- C8 (amended): every SQL query the program issues reads only columns of
the interface contract, except `data_utils.load_data`, whose SELECT list
additionally reads `instrument_id`. -/
theorem c8_columns_in_contract (q : String × List String)
    (hq : q ∈ queryColumnReads) (hnot : q.1 ≠ "data_utils.load_data") :
    ∀ c ∈ q.2, c ∈ contractColumns := by
  fin_cases hq <;> simp_all <;> decide

/-- Witness for `c8_columns_in_contract` at the grouping query's `high`. -/
theorem c8_columns_in_contract_witness : "high" ∈ contractColumns :=
  c8_columns_in_contract
    ("slicers.group_symbols_by_time_zone", ["ts_event", "high", "symbol", "category"])
    (by decide) (by decide) "high" (by decide)

/-- C8 counterexample: the `load_data` query reads `instrument_id`, a column
not named in the interface contract. -/
theorem c8_counterexample :
    ("data_utils.load_data",
      ["ts_event", "open", "high", "low", "close", "volume", "instrument_id",
       "hour", "minute", "category", "symbol"]) ∈ queryColumnReads
  ∧ "instrument_id" ∈ ["ts_event", "open", "high", "low", "close", "volume",
      "instrument_id", "hour", "minute", "category", "symbol"]
  ∧ "instrument_id" ∉ contractColumns := by
  refine ⟨by decide, by decide, by decide⟩

end FTD
